import Mathlib

/-!
Shallow embedding of `src/controllers/posts-controller.ts`: the mutating
operations (createPost, editPost, deletePost, createComment) and the feed
query (getFeed) of the posts controller, over an explicit entity store of
User / Post / Comment records.

Modelling conventions, each traceable to the source:
- Identifiers are `Nat`; all modelled ids are well-formed, so a Mongoose
  `findById` on an id absent from the collection resolves to `null`
  (it does not throw).  A throw from `findById` (CastError on a malformed
  id, or a connection failure) is modelled by a Boolean read-failure
  oracle passed to the operation, since only a throw reaches the
  surrounding `catch` block in the source.
- Each write issued inside a Mongoose session (`save`, `remove`,
  `commitTransaction`) may fail; this is modelled by an oracle
  `wFail : Nat → Bool` indexed by the position of the write in the
  source's transaction block.  Writes inside an uncommitted transaction
  are not visible, so every aborted path returns the original store.
- A JavaScript runtime `TypeError` raised by dereferencing `null` inside
  a `try` block lands in the corresponding `catch` (source: the
  `user!.posts.push` / `user!.comments.push` / `post!.comments.push`
  statements sit inside the transaction `try`, whose catch returns the
  500 store error).  A `null` dereference outside any `try`
  (`filteredPost.creatorId.id` in deletePost when populate found no
  user) is an uncaught exception, modelled as the distinct outcome
  `ErrKind.crash`.
- Timestamps (`createDate`, an ISO string in the source, ordered
  lexicographically exactly as chronologically) are `Nat`.
-/

namespace PostsController

/-- Latitude/longitude pair produced by the geocoder
(`getCoordsFromAddress`). -/
structure Coord where
  lat : Int
  lng : Int
deriving DecidableEq

/-- One record of the `PostModel` collection (postSchema): title,
description, creator reference, address, coordinates, creation
timestamp, optional image location, and the denormalized list of
comment ids pushed by `createComment`. -/
structure Post where
  title : String
  description : String
  creatorId : Nat
  address : String
  coordinates : Coord
  createDate : Nat
  image : Option String
  comments : List Nat
deriving DecidableEq

/-- One record of the `UserModel` collection, restricted to the fields
the controller touches: the denormalized `posts` and `comments` id
lists. -/
structure User where
  posts : List Nat
  comments : List Nat
deriving DecidableEq

/-- One record of the `CommentModel` collection (commentSchema):
creator reference, creation timestamp, body text, target post
reference. -/
structure Comment where
  creatorId : Nat
  createDate : Nat
  comment : String
  post : Nat
deriving DecidableEq

/-- The entity store: the three MongoDB collections, each an
association list from identifier to record. -/
structure Store where
  users : List (Nat × User)
  posts : List (Nat × Post)
  comments : List (Nat × Comment)
deriving DecidableEq

/-- `Model.findById` on a well-formed id: first record with that key,
`none` when absent. -/
def findById {α : Type} (l : List (Nat × α)) (id : Nat) : Option α :=
  (l.find? (fun p => p.1 == id)).map (fun p => p.2)

/-- `document.save()` on an already-persisted document: replace the
record stored under `id`. -/
def setById {α : Type} (l : List (Nat × α)) (id : Nat) (a : α) : List (Nat × α) :=
  l.map (fun p => if p.1 == id then (id, a) else p)

/-- `document.remove()`: delete the record stored under `id`. -/
def removeById {α : Type} (l : List (Nat × α)) (id : Nat) : List (Nat × α) :=
  l.filter (fun p => p.1 != id)

/-- The error taxonomy of the controller, one constructor per distinct
failure signal: 404 not-found errors, 401 ownership errors, geocoding
failures, 500 store/communication errors, and an uncaught runtime
exception (`crash`). -/
inductive ErrKind where
  | notFound
  | unauthorized
  | geocodeError
  | storeError
  | crash
deriving DecidableEq

/-- Outcome of one controller operation: the response value or the error
kind passed to `next`. -/
def Res (α : Type) : Type := Except ErrKind α

/-- Whether an outcome is an error (the handler called `next(error)`). -/
def isErr {α : Type} : Res α → Bool
  | Except.error _ => true
  | Except.ok _ => false

/-- Source: `getFeed` (posts-controller.ts lines 11-24).
`PostModel.find().sort(createDate ascending).limit(50)`: the stored
posts sorted by `createDate` with sort key `1` (ascending, i.e. oldest
first), truncated to 50.  `readFails` models a thrown query error
(caught, 500). -/
def insertByDate (p : Post) : List Post → List Post
  | [] => [p]
  | q :: qs => if p.createDate ≤ q.createDate then p :: q :: qs else q :: insertByDate p qs

/-- Stable insertion sort by `createDate`, ascending: the semantics of
`.sort(\x7b createDate: 1 \x7d)` in the source. -/
def sortByDateAsc : List Post → List Post
  | [] => []
  | p :: ps => insertByDate p (sortByDateAsc ps)

/-- Source: `getFeed` (lines 11-24): sorted ascending by creation date,
then limited to 50. -/
def getFeed (st : Store) (readFails : Bool) : Res (List Post) :=
  if readFails then Except.error ErrKind.storeError
  else Except.ok ((sortByDateAsc (st.posts.map (fun p => p.2))).take 50)

/-- Source: `createPost` (lines 72-116).
Order of effects in the source: geocode the address (lines 79-83,
failure passed to `next`); construct the new Post document (85-93);
look up the creator (95-100; only a thrown lookup is caught, yielding
the 404); then the transaction (102-113): save the new post (write 0),
`user!.posts.push` (a TypeError when the user lookup returned null,
caught by the transaction catch as a 500), save the user (write 1),
commit (write 2).  Any failure inside the transaction aborts it, so the
store is returned unchanged. -/
def createPost (geo : String → Option Coord) (st : Store)
    (userId : Nat) (title description address : String) (image : Option String)
    (newId : Nat) (now : Nat)
    (userReadFails : Bool) (wFail : Nat → Bool) : Res Post × Store :=
  match geo address with
  | none => (Except.error ErrKind.geocodeError, st)
  | some coordinates =>
    let createdPlace : Post :=
      { title := title, description := description, creatorId := userId,
        address := address, coordinates := coordinates, createDate := now,
        image := image, comments := [] }
    if userReadFails then (Except.error ErrKind.notFound, st)
    else
      if wFail 0 then (Except.error ErrKind.storeError, st)
      else
        match findById st.users userId with
        | none => (Except.error ErrKind.storeError, st)
        | some user =>
          let user' : User := { user with posts := user.posts ++ [newId] }
          if wFail 1 then (Except.error ErrKind.storeError, st)
          else if wFail 2 then (Except.error ErrKind.storeError, st)
          else (Except.ok createdPlace,
            { st with posts := st.posts ++ [(newId, createdPlace)],
                      users := setById st.users userId user' })

/-- Source: `editPost` (lines 118-172).
A thrown post lookup is caught as 404 (`postReadFails`).  When the
lookup resolves `null`, the source's ownership test
`req.userData.userId !== filteredPost?.creatorId.toString()` compares
the requester id against `undefined` (optional chaining
short-circuits), which is always unequal, so the missing-post case
falls into the 401 branch.  With the post present, a non-owner gets
401 before any mutation; an unchanged address skips the geocoder and
updates only title and description; a changed address geocodes first
and, on geocoder failure, returns 500 before any field assignment.
The single `save` (line 164) may fail (`saveFails`, 500), leaving the
store unchanged. -/
def editPost (geo : String → Option Coord) (st : Store)
    (postId userId : Nat) (title description address : String)
    (postReadFails saveFails : Bool) : Res Post × Store :=
  if postReadFails then (Except.error ErrKind.notFound, st)
  else
    match findById st.posts postId with
    | none => (Except.error ErrKind.unauthorized, st)
    | some post =>
      if userId ≠ post.creatorId then (Except.error ErrKind.unauthorized, st)
      else if post.address ≠ address then
        match geo address with
        | none => (Except.error ErrKind.geocodeError, st)
        | some coordinates =>
          let post' : Post :=
            { post with title := title, description := description,
                        coordinates := coordinates, address := address }
          if saveFails then (Except.error ErrKind.storeError, st)
          else (Except.ok post', { st with posts := setById st.posts postId post' })
      else
        let post' : Post := { post with title := title, description := description }
        if saveFails then (Except.error ErrKind.storeError, st)
        else (Except.ok post', { st with posts := setById st.posts postId post' })

/-- Source: `deletePost` (lines 174-225).
`findById(postId).populate(creatorId)` resolves the post together with
its owning user; a thrown lookup is caught as 500.  A `null` post is an
explicit 404 (line 192).  When the populated creator is `null` (the
post's creator references no user), `filteredPost.creatorId.id`
(line 196) throws outside any `try`: an uncaught crash.  A non-owner
gets 401.  The transaction (202-217): remove the post (write 0),
`creatorId.posts.pull` removes every occurrence of the post id from the
owner's list, save the owner (write 1), commit (write 2); any failure
aborts with a 500 and no visible writes. -/
def deletePost (st : Store) (postId userId : Nat)
    (readFails : Bool) (wFail : Nat → Bool) : Res Unit × Store :=
  if readFails then (Except.error ErrKind.storeError, st)
  else
    match findById st.posts postId with
    | none => (Except.error ErrKind.notFound, st)
    | some post =>
      match findById st.users post.creatorId with
      | none => (Except.error ErrKind.crash, st)
      | some creator =>
        if post.creatorId ≠ userId then (Except.error ErrKind.unauthorized, st)
        else
          if wFail 0 then (Except.error ErrKind.storeError, st)
          else
            let creator' : User :=
              { creator with posts := creator.posts.filter (fun i => i != postId) }
            if wFail 1 then (Except.error ErrKind.storeError, st)
            else if wFail 2 then (Except.error ErrKind.storeError, st)
            else (Except.ok (),
              { st with posts := removeById st.posts postId,
                        users := setById st.users post.creatorId creator' })

/-- Source: `createComment` (lines 227-282).
Construct the comment document (240-245); look up the creator (247-255,
only a thrown lookup caught as 404); look up the post (257-263,
likewise); then the transaction (265-279): save the comment (write 0),
`user!.comments.push` (TypeError on a null user, caught as 500), save
the user (write 1), `post!.comments.push` (TypeError on a null post,
caught as 500), save the post (write 2), commit (write 3).  Any failure
aborts the transaction, leaving the store unchanged. -/
def createComment (st : Store) (userId : Nat) (commentBody : String) (postId : Nat)
    (newId : Nat) (now : Nat)
    (userReadFails postReadFails : Bool) (wFail : Nat → Bool) : Res Comment × Store :=
  let createdComment : Comment :=
    { creatorId := userId, createDate := now, comment := commentBody, post := postId }
  if userReadFails then (Except.error ErrKind.notFound, st)
  else
    let userR := findById st.users userId
    if postReadFails then (Except.error ErrKind.notFound, st)
    else
      let postR := findById st.posts postId
      if wFail 0 then (Except.error ErrKind.storeError, st)
      else
        match userR with
        | none => (Except.error ErrKind.storeError, st)
        | some user =>
          let user' : User := { user with comments := user.comments ++ [newId] }
          if wFail 1 then (Except.error ErrKind.storeError, st)
          else
            match postR with
            | none => (Except.error ErrKind.storeError, st)
            | some post =>
              let post' : Post := { post with comments := post.comments ++ [newId] }
              if wFail 2 then (Except.error ErrKind.storeError, st)
              else if wFail 3 then (Except.error ErrKind.storeError, st)
              else (Except.ok createdComment,
                { st with comments := st.comments ++ [(newId, createdComment)],
                          users := setById st.users userId user',
                          posts := setById st.posts postId post' })

/-! Concrete fixtures used by witnesses and counterexamples. -/

/-- Geocoder that fails on every address. -/
def geoNone : String → Option Coord := fun _ => none

/-- Fixed coordinates returned by the fixture geocoder. -/
def coordFixed : Coord := { lat := 40, lng := -74 }

/-- Geocoder that resolves every address to fixed coordinates. -/
def geoOk : String → Option Coord := fun _ => some coordFixed

/-- Oracle under which no store write fails. -/
def noFail : Nat → Bool := fun _ => false

/-- Oracle under which exactly write 1 (the user save of createPost,
issued after the post save) fails. -/
def failW1 : Nat → Bool := fun i => i == 1

/-- Store with no records at all. -/
def emptyStore : Store := { users := [], posts := [], comments := [] }

/-- A user owning post 2 and no comments. -/
def user1 : User := { posts := [2], comments := [] }

/-- A post created by user 1. -/
def post1 : Post :=
  { title := "Cabin", description := "d", creatorId := 1,
    address := "123 Main St", coordinates := { lat := 40, lng := -74 },
    createDate := 5, image := none, comments := [] }

/-- Store holding user 1 and their post 2, mutually referenced. -/
def stOwned : Store := { users := [(1, user1)], posts := [(2, post1)], comments := [] }

/-- Store holding only user 1 (no posts). -/
def stUserOnly : Store := { users := [(1, user1)], posts := [], comments := [] }

/-- Store holding only post 2 (no users). -/
def stPostOnly : Store := { users := [], posts := [(2, post1)], comments := [] }

/-- An older post (creation date 1). -/
def postOld : Post :=
  { title := "older", description := "d", creatorId := 1,
    address := "a", coordinates := { lat := 0, lng := 0 },
    createDate := 1, image := none, comments := [] }

/-- A newer post (creation date 2). -/
def postNew : Post :=
  { title := "newer", description := "d", creatorId := 1,
    address := "a", coordinates := { lat := 0, lng := 0 },
    createDate := 2, image := none, comments := [] }

/-- Store holding the newer and the older post. -/
def stFeed : Store := { users := [], posts := [(1, postNew), (2, postOld)], comments := [] }

/-- Replacing the record stored under a present key makes the new value
the one found under that key. -/
theorem findById_setById_self {α : Type} (l : List (Nat × α)) (id : Nat) (a b : α)
    (h : findById l id = some a) : findById (setById l id b) id = some b := by
  induction l with
  | nil => simp [findById] at h
  | cons p t ih =>
    by_cases hk : p.1 == id
    · simp [findById, setById, List.find?, hk]
    · simp only [findById, setById, List.map, List.find?, hk, if_neg] at h ⊢
      simp only [Bool.false_eq_true, if_false, hk] at h ⊢
      exact ih h

/-- C10: createPost resolves coordinates before the creator-existence
lookup: whenever the geocoder fails on the address, the call returns
GeocodeError and the store is unchanged, for every store (including one
where creatorId references no User, so GeocodeError takes precedence
over NotFound) and every read/write failure oracle — the outcome never
consults the user collection or performs a write. -/
theorem createPost_geocode_before_user_lookup
    (geo : String → Option Coord) (st : Store) (uid : Nat)
    (t d a : String) (img : Option String) (nid now : Nat)
    (urf : Bool) (wf : Nat → Bool) (hg : geo a = none) :
    createPost geo st uid t d a img nid now urf wf
      = (Except.error ErrKind.geocodeError, st) := by
  unfold createPost
  rw [hg]

/-- C10 witness: on the empty store (creator 0 does not exist) with a
failing geocoder, createPost returns GeocodeError and leaves the store
empty. -/
theorem createPost_geocode_before_user_lookup_witness :
    createPost geoNone emptyStore 0 "t" "d" "a" none 1 0 false noFail
      = (Except.error ErrKind.geocodeError, emptyStore) :=
  createPost_geocode_before_user_lookup geoNone emptyStore 0 "t" "d" "a" none 1 0 false noFail rfl

/-- C2: creating a post whose creatorId (7) references no existing User,
with a geocodable address, returns the 500 store error — the user lookup
resolves null without throwing, so the 404 catch never fires, and the
null dereference `user!.posts.push` inside the transaction try-block is
caught as the 500 — contradicting the claimed NotFound.  The store is
unchanged (that part of the claim holds). -/
theorem createPost_missing_user_storeError :
    createPost geoOk emptyStore 7 "t" "d" "a" none 1 0 false noFail
      = (Except.error ErrKind.storeError, emptyStore) := rfl

/-- C3: editing a post whose postId (99) is well-formed but references
no existing Post returns the 401 Unauthorized error, not the claimed
404 NotFound: the lookup resolves null without throwing, and the
ownership test compares the requester id against the short-circuited
`undefined`, which never matches. -/
theorem editPost_missing_post_unauthorized :
    editPost geoOk stUserOnly 99 1 "t" "d" "a" false false
      = (Except.error ErrKind.unauthorized, stUserOnly) := rfl

/-- C4: the feed is returned oldest-first, not newest-first: on a store
holding a post with creation date 2 and a post with creation date 1,
getFeed returns the date-1 post before the date-2 post (the source
sorts with key 1, ascending, contradicting both the claim and the
source's own comment). -/
theorem getFeed_oldest_first :
    getFeed stFeed false = Except.ok [postOld, postNew]
      ∧ postOld.createDate < postNew.createDate :=
  ⟨rfl, by decide⟩

/-- C7: createComment with a creatorId (7) referencing no existing User
returns the 500 store error, and likewise with a postId (9) referencing
no existing Post — in both cases the lookup resolves null without
throwing, the 404 catches never fire, and the null dereference inside
the transaction try-block is caught as the 500, contradicting the
claimed NotFound.  The store is unchanged in both cases (that part of
the claim holds). -/
theorem createComment_missing_refs_storeError :
    createComment stPostOnly 7 "hi" 2 10 0 false false noFail
      = (Except.error ErrKind.storeError, stPostOnly)
      ∧ createComment stUserOnly 1 "hi" 9 10 0 false false noFail
        = (Except.error ErrKind.storeError, stUserOnly) :=
  ⟨rfl, rfl⟩

/-- C1: every mutating operation (createPost, editPost, deletePost,
createComment) is all-or-nothing: for every starting store, every input
and every failure oracle, if the operation returns an error then the
store afterwards equals the store before.  In particular (last
conjunct), a createPost in which the post save (write 0) succeeds and
the owning-user save (write 1) fails leaves the post collection's view
of the new id unchanged: no new Post is observable. -/
theorem mutating_ops_atomic :
    (∀ geo st uid t d a img nid now urf wf,
      isErr (createPost geo st uid t d a img nid now urf wf).1 = true →
      (createPost geo st uid t d a img nid now urf wf).2 = st)
    ∧ (∀ geo st pid uid t d a prf sf,
      isErr (editPost geo st pid uid t d a prf sf).1 = true →
      (editPost geo st pid uid t d a prf sf).2 = st)
    ∧ (∀ st pid uid rf wf,
      isErr (deletePost st pid uid rf wf).1 = true →
      (deletePost st pid uid rf wf).2 = st)
    ∧ (∀ st uid body pid nid now urf prf wf,
      isErr (createComment st uid body pid nid now urf prf wf).1 = true →
      (createComment st uid body pid nid now urf prf wf).2 = st)
    ∧ (∀ geo st uid t d a img nid now wf, wf 0 = false → wf 1 = true →
      findById (createPost geo st uid t d a img nid now false wf).2.posts nid
        = findById st.posts nid) := by
  refine ⟨?_, ?_, ?_, ?_, ?_⟩
  · intro geo st uid t d a img nid now urf wf
    unfold createPost
    repeat' split
    all_goals intro h
    all_goals first | rfl | simp [isErr] at h
  · intro geo st pid uid t d a prf sf
    unfold editPost
    repeat' split
    all_goals intro h
    all_goals first | rfl | simp [isErr] at h
  · intro st pid uid rf wf
    unfold deletePost
    repeat' split
    all_goals intro h
    all_goals first | rfl | simp [isErr] at h
  · intro st uid body pid nid now urf prf wf
    unfold createComment
    dsimp only
    repeat' split
    all_goals intro h
    all_goals first | rfl | simp [isErr] at h
  · intro geo st uid t d a img nid now wf h0 h1
    have hs : (createPost geo st uid t d a img nid now false wf).2 = st := by
      unfold createPost
      repeat' split
      all_goals simp_all
    rw [hs]

/-- C1 witness: each conjunct of the atomicity theorem instantiated at a
concrete erroring call on a concrete store. -/
theorem mutating_ops_atomic_witness :
    (createPost geoNone emptyStore 1 "t" "d" "a" none 2 0 false noFail).2 = emptyStore
    ∧ (editPost geoOk emptyStore 1 2 "t" "d" "a" false false).2 = emptyStore
    ∧ (deletePost emptyStore 1 2 false noFail).2 = emptyStore
    ∧ (createComment emptyStore 1 "b" 2 3 0 false false noFail).2 = emptyStore
    ∧ findById (createPost geoOk stOwned 1 "t" "d" "a" none 9 0 false failW1).2.posts 9
        = findById stOwned.posts 9 :=
  ⟨mutating_ops_atomic.1 geoNone emptyStore 1 "t" "d" "a" none 2 0 false noFail rfl,
   mutating_ops_atomic.2.1 geoOk emptyStore 1 2 "t" "d" "a" false false rfl,
   mutating_ops_atomic.2.2.1 emptyStore 1 2 false noFail rfl,
   mutating_ops_atomic.2.2.2.1 emptyStore 1 "b" 2 3 0 false false noFail rfl,
   mutating_ops_atomic.2.2.2.2 geoOk stOwned 1 "t" "d" "a" none 9 0 failW1 rfl rfl⟩

/-- C5: editPost geocoding policy.  (1) When the new address equals the
stored address, the outcome is identical under any two geocoders: the
Geocoder is never consulted.  (2) In that case a successful edit
updates only title and description, leaving address and coordinates
untouched.  (3) When the new address differs and the geocoder fails,
the call returns GeocodeError with the store (hence every field of the
post) unchanged.  (4) When the new address differs and the geocoder
succeeds, the returned coordinates are stored: the Geocoder is always
consulted on a changed address. -/
theorem editPost_regeocode_policy :
    (∀ geo geo2 st pid uid t d prf sf post, findById st.posts pid = some post →
      editPost geo st pid uid t d post.address prf sf
        = editPost geo2 st pid uid t d post.address prf sf)
    ∧ (∀ geo st pid uid t d post, findById st.posts pid = some post →
      uid = post.creatorId →
      editPost geo st pid uid t d post.address false false
        = (Except.ok { post with title := t, description := d },
           { st with posts := setById st.posts pid { post with title := t, description := d } }))
    ∧ (∀ geo st pid uid t d a sf post, findById st.posts pid = some post →
      uid = post.creatorId → post.address ≠ a → geo a = none →
      editPost geo st pid uid t d a false sf = (Except.error ErrKind.geocodeError, st))
    ∧ (∀ geo st pid uid t d a c post, findById st.posts pid = some post →
      uid = post.creatorId → post.address ≠ a → geo a = some c →
      editPost geo st pid uid t d a false false
        = (Except.ok { post with title := t, description := d,
                                 coordinates := c, address := a },
           { st with posts := setById st.posts pid
                                { post with title := t, description := d,
                                            coordinates := c, address := a } })) := by
  refine ⟨?_, ?_, ?_, ?_⟩
  · intro geo geo2 st pid uid t d prf sf post hp
    unfold editPost
    simp [hp]
  · intro geo st pid uid t d post hp hown
    unfold editPost
    simp [hp, hown]
  · intro geo st pid uid t d a sf post hp hown hne hg
    unfold editPost
    simp [hp, hown, hne, hg]
  · intro geo st pid uid t d a c post hp hown hne hg
    unfold editPost
    simp [hp, hown, hne, hg]

/-- C5 witness: the four conjuncts of the geocoding-policy theorem
instantiated on the store holding user 1 and their post 2. -/
theorem editPost_regeocode_policy_witness :
    (editPost geoOk stOwned 2 9 "t" "d" post1.address true true
      = editPost geoNone stOwned 2 9 "t" "d" post1.address true true)
    ∧ (editPost geoNone stOwned 2 1 "T" "D" post1.address false false
      = (Except.ok { post1 with title := "T", description := "D" },
         { stOwned with posts := setById stOwned.posts 2
                          { post1 with title := "T", description := "D" } }))
    ∧ (editPost geoNone stOwned 2 1 "T" "D" "elsewhere" false false
      = (Except.error ErrKind.geocodeError, stOwned))
    ∧ (editPost geoOk stOwned 2 1 "T" "D" "elsewhere" false false
      = (Except.ok { post1 with title := "T", description := "D",
                                coordinates := coordFixed, address := "elsewhere" },
         { stOwned with posts := setById stOwned.posts 2
                          { post1 with title := "T", description := "D",
                                       coordinates := coordFixed, address := "elsewhere" } })) :=
  ⟨editPost_regeocode_policy.1 geoOk geoNone stOwned 2 9 "t" "d" true true post1 rfl,
   editPost_regeocode_policy.2.1 geoNone stOwned 2 1 "T" "D" post1 rfl rfl,
   editPost_regeocode_policy.2.2.1 geoNone stOwned 2 1 "T" "D" "elsewhere" false post1 rfl rfl
     (by decide) rfl,
   editPost_regeocode_policy.2.2.2 geoOk stOwned 2 1 "T" "D" "elsewhere"
     coordFixed post1 rfl rfl (by decide) rfl⟩

/-- C6: an edit or delete of an existing post by a requester other than
the post's creator fails with Unauthorized and leaves the store — in
particular every stored field of the target post — exactly as before
the call, and nothing is deleted.  (For deletePost the owning user is
resolved alongside the post; the hypothesis that the creator exists
reflects the bidirectional-consistency invariant of well-formed
stores.) -/
theorem nonowner_edit_delete_unauthorized :
    (∀ geo st pid uid t d a sf post, findById st.posts pid = some post →
      uid ≠ post.creatorId →
      editPost geo st pid uid t d a false sf = (Except.error ErrKind.unauthorized, st))
    ∧ (∀ st pid uid wf post creator, findById st.posts pid = some post →
      findById st.users post.creatorId = some creator → uid ≠ post.creatorId →
      deletePost st pid uid false wf = (Except.error ErrKind.unauthorized, st)) := by
  constructor
  · intro geo st pid uid t d a sf post hp hne
    unfold editPost
    simp [hp, hne]
  · intro st pid uid wf post creator hp hc hne
    unfold deletePost
    simp [hp, hc, Ne.symm hne]

/-- C6 witness: user 9 (not the creator, user 1) editing and deleting
post 2: both calls return Unauthorized and leave the store intact. -/
theorem nonowner_edit_delete_unauthorized_witness :
    editPost geoOk stOwned 2 9 "t" "d" "a" false false
      = (Except.error ErrKind.unauthorized, stOwned)
    ∧ deletePost stOwned 2 9 false noFail
      = (Except.error ErrKind.unauthorized, stOwned) :=
  ⟨nonowner_edit_delete_unauthorized.1 geoOk stOwned 2 9 "t" "d" "a" false post1 rfl (by decide),
   nonowner_edit_delete_unauthorized.2 stOwned 2 9 noFail post1 user1 rfl rfl (by decide)⟩

/-- C8: after a successful createComment with a fresh comment id, the
creator's comment list and the target post's comment list each equal
their previous value with the new id appended once at the end, so the
new id appears exactly once in each and every other entry is
unchanged. -/
theorem createComment_fanout (st : Store) (uid pid : Nat) (body : String)
    (cid now : Nat) (urf prf : Bool) (wf : Nat → Bool)
    (user : User) (post : Post) (c : Comment)
    (hu : findById st.users uid = some user) (hp : findById st.posts pid = some post)
    (hcu : cid ∉ user.comments) (hcp : cid ∉ post.comments)
    (hok : (createComment st uid body pid cid now urf prf wf).1 = Except.ok c) :
    findById (createComment st uid body pid cid now urf prf wf).2.users uid
      = some { user with comments := user.comments ++ [cid] }
    ∧ findById (createComment st uid body pid cid now urf prf wf).2.posts pid
      = some { post with comments := post.comments ++ [cid] }
    ∧ List.count cid (user.comments ++ [cid]) = 1
    ∧ List.count cid (post.comments ++ [cid]) = 1 := by
  have hcount1 : List.count cid (user.comments ++ [cid]) = 1 := by
    rw [List.count_append]
    simp [List.count_eq_zero.mpr hcu]
  have hcount2 : List.count cid (post.comments ++ [cid]) = 1 := by
    rw [List.count_append]
    simp [List.count_eq_zero.mpr hcp]
  revert hok
  unfold createComment
  dsimp only
  simp only [hu, hp]
  repeat' split
  all_goals intro hok
  all_goals first
    | exact ⟨findById_setById_self _ _ _ _ hu, findById_setById_self _ _ _ _ hp,
             hcount1, hcount2⟩
    | simp at hok

/-- C8 witness: user 1 comments on post 2 with fresh comment id 3: the
comment id ends up exactly once in both comment lists. -/
theorem createComment_fanout_witness :
    findById (createComment stOwned 1 "b" 2 3 0 false false noFail).2.users 1
      = some { user1 with comments := user1.comments ++ [3] }
    ∧ findById (createComment stOwned 1 "b" 2 3 0 false false noFail).2.posts 2
      = some { post1 with comments := post1.comments ++ [3] }
    ∧ List.count 3 (user1.comments ++ [3]) = 1
    ∧ List.count 3 (post1.comments ++ [3]) = 1 :=
  createComment_fanout stOwned 1 2 "b" 3 0 false false noFail user1 post1
    { creatorId := 1, createDate := 0, comment := "b", post := 2 }
    rfl rfl (by simp [user1]) (by simp [post1]) rfl

/-- C9: back-reference symmetry.  After any successful createPost the
owning user's post list equals the previous list with the new post id
appended once at the end; after any successful deletePost the owning
user's post list is the previous list with every occurrence of the
deleted id removed, so the id is no longer contained in it. -/
theorem backref_symmetry :
    (∀ geo st uid t d a img nid now urf wf q user,
      findById st.users uid = some user →
      (createPost geo st uid t d a img nid now urf wf).1 = Except.ok q →
      findById (createPost geo st uid t d a img nid now urf wf).2.users uid
        = some { user with posts := user.posts ++ [nid] })
    ∧ (∀ st pid uid rf wf post creator,
      findById st.posts pid = some post →
      findById st.users post.creatorId = some creator →
      (deletePost st pid uid rf wf).1 = Except.ok () →
      findById (deletePost st pid uid rf wf).2.users post.creatorId
        = some { creator with posts := creator.posts.filter (fun i => i != pid) }
      ∧ pid ∉ creator.posts.filter (fun i => i != pid)) := by
  constructor
  · intro geo st uid t d a img nid now urf wf q user hu hok
    revert hok
    unfold createPost
    dsimp only
    simp only [hu]
    repeat' split
    all_goals intro hok
    all_goals first
      | exact findById_setById_self _ _ _ _ hu
      | simp at hok
  · intro st pid uid rf wf post creator hp hc hok
    revert hok
    unfold deletePost
    simp only [hp, hc]
    repeat' split
    all_goals intro hok
    all_goals first
      | exact ⟨findById_setById_self _ _ _ _ hc, by simp [List.mem_filter]⟩
      | simp at hok

/-- C9 witness: user 1 successfully creates post 9 (their list gains 9
at the end) and successfully deletes post 2 (their list no longer
contains 2). -/
theorem backref_symmetry_witness :
    findById (createPost geoOk stOwned 1 "t" "d" "a" none 9 0 false noFail).2.users 1
      = some { user1 with posts := user1.posts ++ [9] }
    ∧ (findById (deletePost stOwned 2 1 false noFail).2.users post1.creatorId
        = some { user1 with posts := user1.posts.filter (fun i => i != 2) }
      ∧ 2 ∉ user1.posts.filter (fun i => i != 2)) :=
  ⟨backref_symmetry.1 geoOk stOwned 1 "t" "d" "a" none 9 0 false noFail
    { title := "t", description := "d", creatorId := 1, address := "a",
      coordinates := coordFixed, createDate := 0,
      image := none, comments := [] } user1 rfl rfl,
   backref_symmetry.2 stOwned 2 1 false noFail post1 user1 rfl rfl rfl⟩

end PostsController
